import Mathlib

/-!
Verification of the decision-and-execution engine of the Crypto-Trading-Bot
repository (single source file `src/app.py`) against its specification.

The embedding below translates the pure core of `src/app.py`:
* `calculate_RSI` (lines 136-193) — Wilder-smoothed 14-period RSI over a
  closing-price series (the series itself is what `get_closing_prices`
  returned; we take it as the function's input),
* `check_buy_parameters` / `check_sell_parameters` (lines 284-293),
* `get_order` (lines 255-281) — the order poll/cancel loop, with the
  exchange's successive status responses abstracted as a function of the
  query index and wall-clock time abstracted as the number of seconds slept,
* `buy` / `sell` (lines 196-252), `buy_strategy` / `sell_strategy`
  (lines 296-327), `analyse_buys` (lines 331-334) and the exception
  dispatch of the `__main__` while-loop (lines 350-376).

Python floats are modelled as rationals (`ℚ`); all arithmetic in the
original is plain IEEE arithmetic on values where the operation order is
fixed, and every claim below concerns order/sign/threshold behaviour that
is unaffected by the idealisation.

The collaborators `src.bittrex`, `src.database` and `src.messenger` are not
part of the provided source; where their behaviour matters they are
modelled from the spec (see the individual doc comments).
-/

namespace CryptoBot

/-! ## IndicatorEngine: `calculate_RSI` (app.py lines 136-193) -/

/-- Successive deltas of a series: element `i` is `l[i+1] - l[i]`.
Used to express both delta loops of `calculate_RSI`. -/
def adjDeltas (l : List ℚ) : List ℚ := List.zipWith (fun a b => b - a) l l.tail

/-- The `change` list of app.py lines 153-161: deltas of the first 15
closes (the loop breaks once `count == 15`; for a shorter series it covers
the whole series). -/
def change (closes : List ℚ) : List ℚ := adjDeltas (closes.take 15)

/-- The deltas consumed by the smoothing loop of app.py lines 174-186:
`closes[count] - closes[count-1]` for `count = 15 .. len-1`
(the guard `14 < count < len(closing_prices)`). -/
def tailDeltas (closes : List ℚ) : List ℚ := adjDeltas (closes.drop 14)

/-- One iteration of the Wilder smoothing loop (app.py lines 176-185):
`new_avg_gain = (new_avg_gain*13 + add_gain)/14`,
`new_avg_loss = (new_avg_loss*13 + add_loss)/14`. -/
def wilderStep (avgs : ℚ × ℚ) (delta : ℚ) : ℚ × ℚ :=
  let add_gain := if delta > 0 then delta else 0
  let add_loss := if delta < 0 then |delta| else 0
  ((avgs.1 * 13 + add_gain) / 14, (avgs.2 * 13 + add_loss) / 14)

/-- Seed averages (app.py lines 162-171): `advances`/`declines` partition
the `change` list, `average_gain = sum(advances)/14`,
`average_loss = sum(declines)/14` (divisor 14 regardless of how many
deltas were available). -/
def seedAvgs (closes : List ℚ) : ℚ × ℚ :=
  let advances := (change closes).filter (fun d => d > 0)
  let declines := ((change closes).filter (fun d => d < 0)).map (fun d => |d|)
  (advances.sum / 14, declines.sum / 14)

/-- `(new_avg_gain, new_avg_loss)` after the smoothing loop has consumed all
closes beyond the initial 15-window (app.py lines 172-186). -/
def finalAvgs (closes : List ℚ) : ℚ × ℚ :=
  (tailDeltas closes).foldl wilderStep (seedAvgs closes)

/-- `calculate_RSI` (app.py lines 136-193), as a function of the
closing-price series it fetched: `None` when the final average loss is
zero, else `100 - 100/(1 + rs)` with `rs = new_avg_gain/new_avg_loss`. -/
def calculate_RSI (closes : List ℚ) : Option ℚ :=
  let avgs := finalAvgs closes
  if avgs.2 = 0 then none
  else
    let rs := avgs.1 / avgs.2
    some (100 - 100 / (1 + rs))

/-! ## SignalPolicy: `check_buy_parameters` / `check_sell_parameters`
(app.py lines 284-293) -/

/-- The `buy` block of `tradeParameters` (app.py lines 27-32, 43-44).
`volumeThreshold24Hour` renders the JSON key `24HourVolumeThreshold`. -/
structure BuyParams where
  btcAmount : ℚ
  rsiThreshold : ℚ
  volumeThreshold24Hour : ℚ
  minimumUnitPrice : ℚ

/-- The `sell` block of `tradeParameters` (app.py lines 33-36, 45),
including the `minProfitMarginThreshold` key read at line 292. -/
structure SellParams where
  rsiThreshold : ℚ
  profitMarginThreshold : ℚ
  minProfitMarginThreshold : ℚ

/-- `check_buy_parameters` (app.py lines 284-287): `rsi is not None and
rsi <= buy_params["rsiThreshold"] and day_volume >=
buy_params["24HourVolumeThreshold"] and current_buy_price >
buy_params["minimumUnitPrice"]`. -/
def check_buy_parameters (bp : BuyParams) (rsi : Option ℚ) (day_volume : ℚ)
    (current_buy_price : ℚ) : Bool :=
  match rsi with
  | none => false
  | some r =>
    decide (r ≤ bp.rsiThreshold) && decide (day_volume ≥ bp.volumeThreshold24Hour) &&
      decide (current_buy_price > bp.minimumUnitPrice)

/-- `check_sell_parameters` (app.py lines 290-293): `(rsi is not None and
rsi >= sell_params["rsiThreshold"] and profit_margin >
sell_params["minProfitMarginThreshold"]) or profit_margin >
sell_params["profitMarginThreshold"]`. -/
def check_sell_parameters (sp : SellParams) (rsi : Option ℚ) (profit_margin : ℚ) : Bool :=
  (match rsi with
   | none => false
   | some r =>
     decide (r ≥ sp.rsiThreshold) && decide (profit_margin > sp.minProfitMarginThreshold)) ||
    decide (profit_margin > sp.profitMarginThreshold)

/-! ## OrderLifecycleManager: `get_order` (app.py lines 255-281) -/

/-- The order snapshot returned by a `Bittrex.get_order` status query:
the fields of `order_data["result"]` that app.py reads (`IsOpen`,
`Quantity`, `Exchange`). Modelled from the spec:
`getOrderStatus(orderId) → {isOpen, filledQuantity, exchangeName, ...}`
(`src/bittrex.py` is not part of the provided source). -/
structure OrderData where
  isOpen : Bool
  quantity : ℚ
  exchange : String
deriving DecidableEq

/-- Outcome of `get_order`: the returned snapshot, how many cancel requests
were issued, how many status queries were made, and the seconds slept. -/
structure GetOrderResult where
  result : OrderData
  cancels : ℕ
  polls : ℕ
  elapsed : ℕ
deriving DecidableEq

/-- The `while` loop of `get_order` (app.py line 271-273):
`while time.time() - start_time <= trade_time_limit and
order_data["result"]["IsOpen"]: time.sleep(10); order_data =
Bittrex.get_order(order_uuid)`.

State is `(t, n, d)`: seconds slept so far, index of the next status query,
and the current snapshot. Elapsed wall-clock time is modelled as the sleep
total `t` (the queries themselves are instantaneous in the model). The
`fuel` argument only bounds the recursion; one sleep per iteration adds 10
to `t` and the loop runs only while `t ≤ limit`, so at most
`limit/10 + 1 ≤ limit + 1` iterations ever execute and a start fuel of
`limit + 1` is never exhausted (`pollLoopAux_fuel_irrelevant` below). -/
def pollLoopAux (query : ℕ → OrderData) (limit : ℕ) :
    ℕ → ℕ → ℕ → OrderData → OrderData × ℕ × ℕ
  | 0, t, n, d => (d, t, n)
  | fuel + 1, t, n, d =>
    if t ≤ limit ∧ d.isOpen = true then
      pollLoopAux query limit fuel (t + 10) (n + 1) (query n)
    else (d, t, n)

/-- `get_order(order_uuid, trade_time_limit)` (app.py lines 255-281):
initial status query, poll loop, and — when the order is still open after
the loop — a diagnostic plus exactly one `Bittrex.cancel` call; in every
branch the last retrieved snapshot is returned. `query n` is the exchange's
response to the `n`-th status query for this order. -/
def get_order (query : ℕ → OrderData) (trade_time_limit : ℕ) : GetOrderResult :=
  let d0 := query 0
  let r := pollLoopAux query trade_time_limit (trade_time_limit + 1) 0 1 d0
  if r.1.isOpen then
    { result := r.1, cancels := 1, polls := r.2.2, elapsed := r.2.1 }
  else
    { result := r.1, cancels := 0, polls := r.2.2, elapsed := r.2.1 }

/-! ## Ledger and collaborators (modelled from the spec) -/

/-- Modelled from the spec: an `OpenPosition` record of the ledger
(`src/database.py` is not part of the provided source):
`{ quantity, buyPrice, buyTimestamp }`; the timestamp plays no role in any
claim and is omitted. -/
structure Trade where
  quantity : ℚ
  buyPrice : ℚ
deriving DecidableEq

/-- Modelled from the spec: the persistent trade ledger
(`src/database.py` is not part of the provided source) — a key-value store
of open positions, keyed by market symbol, together with the
`trades["trackedCoinPairs"]` list that app.py reads directly and the
initial-buy order records stored by `store_initial_buy`. -/
structure Database where
  trackedCoinPairs : List String
  openTrades : List (String × Trade)
  pendingBuyOrders : List (String × String)
deriving DecidableEq

/-- Modelled from the spec: `Database.store_initial_buy(coin_pair, uuid)`
(app.py line 215) records the placed order; it creates no `OpenPosition`
(the spec: a position is created when a buy order fills). -/
def store_initial_buy (db : Database) (coin_pair uuid : String) : Database :=
  { db with pendingBuyOrders := (coin_pair, uuid) :: db.pendingBuyOrders }

/-- Modelled from the spec: `Database.store_buy(order_result, stats)`
(app.py line 218) — `putOpenPosition`: persists a new `OpenPosition` with
the filled quantity and buy price and marks the coin pair as tracked. -/
def store_buy (db : Database) (coin_pair : String) (quantity buyPrice : ℚ) : Database :=
  { trackedCoinPairs := coin_pair :: db.trackedCoinPairs,
    openTrades := (coin_pair, { quantity := quantity, buyPrice := buyPrice }) :: db.openTrades,
    pendingBuyOrders := db.pendingBuyOrders }

/-- Modelled from the spec: `Database.get_open_trade(coin_pair)`
(app.py line 240) — `getOpenPosition`. -/
def get_open_trade (db : Database) (coin_pair : String) : Trade :=
  (((db.openTrades.filter (fun p => p.1 = coin_pair)).map Prod.snd).headD
    { quantity := 0, buyPrice := 0 })

/-- Modelled from the spec: `Database.store_sell(order_result, stats)`
(app.py line 247) — `removeOpenPosition`: destroys the position and
untracks the coin pair. -/
def store_sell (db : Database) (coin_pair : String) : Database :=
  { trackedCoinPairs := db.trackedCoinPairs.filter (fun c => c ≠ coin_pair),
    openTrades := db.openTrades.filter (fun p => p.1 ≠ coin_pair),
    pendingBuyOrders := db.pendingBuyOrders }

/-- Modelled from the spec: `Database.get_profit_margin(coin_pair, price)`
(app.py line 318) — `(currentBidPrice − buyPrice)/buyPrice` for the
market's open position. -/
def get_profit_margin (db : Database) (coin_pair : String) (price : ℚ) : ℚ :=
  let trade := get_open_trade db coin_pair
  (price - trade.buyPrice) / trade.buyPrice

/-- Modelled from the spec: the exchange collaborator
(`src/bittrex.py` is not part of the provided source), restricted to the
successful-response data that the buy/sell paths consume: historical
closes, 24h volume, ask/bid price, whether a placement call succeeds, the
uuid a successful placement returns, and the successive status-query
responses per order uuid. -/
structure Exchange where
  closes : String → List ℚ
  volume24Hour : String → ℚ
  askPrice : String → ℚ
  bidPrice : String → ℚ
  buySuccess : String → Bool
  sellSuccess : String → Bool
  buyUuid : String → String
  sellUuid : String → String
  orderStatus : String → ℕ → OrderData

/-- Externally visible effects of the buy/sell paths: exchange calls
(placement, status query, cancel) and notifier/log events. Notifications
are modelled from the spec's Notifier contract (`src/messenger.py` is not
part of the provided source): the three messenger calls that follow a
settled buy (email, print, sound — app.py lines 220-223) collapse into one
`notifyBuy` event, and likewise for sell. -/
inductive Action
  | buyLimit (market : String) (quantity price : ℚ)
  | sellLimit (market : String) (quantity price : ℚ)
  | queryOrder (uuid : String)
  | cancelOrder (uuid : String)
  | logError (msg : String)
  | notifyBuy (market : String) (quantity price : ℚ) (rsi : Option ℚ) (volume24Hour : ℚ)
  | notifySell (market : String) (quantity price : ℚ) (rsi : Option ℚ) (profitMargin : ℚ)
  | notifyNoBuy (market : String)
  | notifyNoSell (market : String)
deriving DecidableEq

/-- The stats dict built by `buy_strategy` (app.py lines 304-307). -/
structure BuyStats where
  rsi : Option ℚ
  volume24Hour : ℚ
deriving DecidableEq

/-- The stats dict built by `sell_strategy` (app.py lines 321-324). -/
structure SellStats where
  rsi : Option ℚ
  profitMargin : ℚ
deriving DecidableEq

/-! ## TradeCoordinator: `buy` / `sell` (app.py lines 196-252) -/

/-- `buy(coin_pair, btc_quantity, price, stats, trade_time_limit)`
(app.py lines 196-223): place `buy_limit(coin_pair, btc_quantity/price,
price)`; on `success == False` log the failure and do nothing else;
otherwise store the initial buy, run `get_order` on the returned uuid with
`trade_time_limit * 60` seconds, store the buy, and notify. Returns the
updated ledger and the list of effects in order. -/
def buy (e : Exchange) (db : Database) (coin_pair : String) (btc_quantity price : ℚ)
    (stats : BuyStats) (trade_time_limit : ℕ) : Database × List Action :=
  let callAction := Action.buyLimit coin_pair (btc_quantity / price) price
  if e.buySuccess coin_pair = false then
    (db, [callAction, Action.logError ("Failed to buy on " ++ coin_pair ++ " market.")])
  else
    let uuid := e.buyUuid coin_pair
    let db1 := store_initial_buy db coin_pair uuid
    let r := get_order (e.orderStatus uuid) (trade_time_limit * 60)
    let db2 := store_buy db1 coin_pair r.result.quantity price
    (db2,
      [callAction] ++ List.replicate r.polls (Action.queryOrder uuid) ++
        List.replicate r.cancels (Action.cancelOrder uuid) ++
        [Action.notifyBuy coin_pair r.result.quantity price stats.rsi stats.volume24Hour])

/-- `sell(coin_pair, price, stats, trade_time_limit)` (app.py lines
226-252): look up the open trade, place `sell_limit(coin_pair,
trade["quantity"], price)`; on `success == False` log the failure and do
nothing else; otherwise run `get_order`, store the sell, and notify. -/
def sell (e : Exchange) (db : Database) (coin_pair : String) (price : ℚ)
    (stats : SellStats) (trade_time_limit : ℕ) : Database × List Action :=
  let trade := get_open_trade db coin_pair
  let callAction := Action.sellLimit coin_pair trade.quantity price
  if e.sellSuccess coin_pair = false then
    (db, [callAction, Action.logError ("Failed to sell on " ++ coin_pair ++ " market.")])
  else
    let uuid := e.sellUuid coin_pair
    let r := get_order (e.orderStatus uuid) (trade_time_limit * 60)
    let db2 := store_sell db coin_pair
    (db2,
      [callAction] ++ List.replicate r.polls (Action.queryOrder uuid) ++
        List.replicate r.cancels (Action.cancelOrder uuid) ++
        [Action.notifySell coin_pair r.result.quantity price stats.rsi stats.profitMargin])

/-! ## `buy_strategy` / `sell_strategy` / `analyse_buys`
(app.py lines 296-334) -/

/-- `buy_strategy(coin_pair)` (app.py lines 296-310): return immediately
when the coin pair is tracked; otherwise compute the RSI over the fetched
closes, fetch volume and ask price, and either buy (thresholds met), emit
a no-buy notification (`rsi is not None and rsi <= 50`), or stay silent.
The buy call uses `trade_time_limit`'s default value 2 (app.py line 196). -/
def buy_strategy (e : Exchange) (bp : BuyParams) (db : Database) (coin_pair : String) :
    Database × List Action :=
  if coin_pair ∈ db.trackedCoinPairs then (db, [])
  else
    let rsi := calculate_RSI (e.closes coin_pair)
    let day_volume := e.volume24Hour coin_pair
    let current_buy_price := e.askPrice coin_pair
    if check_buy_parameters bp rsi day_volume current_buy_price then
      buy e db coin_pair bp.btcAmount current_buy_price
        { rsi := rsi, volume24Hour := day_volume } 2
    else if (match rsi with | none => false | some r => decide (r ≤ 50)) then
      (db, [Action.notifyNoBuy coin_pair])
    else (db, [])

/-- `sell_strategy(coin_pair)` (app.py lines 313-327): return immediately
when the coin pair is not tracked; otherwise compute the RSI, fetch the bid
price, compute the profit margin against the stored position, and either
sell, emit a no-sell notification (`rsi is not None`), or stay silent. -/
def sell_strategy (e : Exchange) (sp : SellParams) (db : Database) (coin_pair : String) :
    Database × List Action :=
  if coin_pair ∉ db.trackedCoinPairs then (db, [])
  else
    let rsi := calculate_RSI (e.closes coin_pair)
    let current_sell_price := e.bidPrice coin_pair
    let profit_margin := get_profit_margin db coin_pair current_sell_price
    if check_sell_parameters sp rsi profit_margin then
      sell e db coin_pair current_sell_price
        { rsi := rsi, profitMargin := profit_margin } 2
    else if rsi.isSome then (db, [Action.notifyNoSell coin_pair])
    else (db, [])

/-- `analyse_buys()` (app.py lines 331-334): when fewer than one coin pair
is tracked, run `buy_strategy` over every market in order, threading the
ledger; otherwise do nothing. -/
def analyse_buys (e : Exchange) (bp : BuyParams) (pairs : List String) (db : Database) :
    Database × List Action :=
  if db.trackedCoinPairs.length < 1 then
    pairs.foldl
      (fun acc coin_pair =>
        let r := buy_strategy e bp acc.1 coin_pair
        (r.1, acc.2 ++ r.2))
      (db, [])
  else (db, [])

/-- Repeated invocations of `buy_strategy` on the same market, threading
the ledger state, collecting all effects (for the idempotence claim). -/
def iterate_buy_strategy (e : Exchange) (bp : BuyParams) (coin_pair : String) :
    ℕ → Database → Database × List Action
  | 0, db => (db, [])
  | n + 1, db =>
    let r := buy_strategy e bp db coin_pair
    let r2 := iterate_buy_strategy e bp coin_pair n r.1
    (r2.1, r.2 ++ r2.2)

/-! ## MainLoop exception dispatch (app.py lines 350-376) -/

/-- The exception classes distinguished by the `except` clauses of the
`__main__` while-loop. `unknown` stands for any exception matching only
the final bare `except Exception`. -/
inductive CycleException
  | connectionError
  | jsonDecodeError
  | typeError
  | keyError
  | valueError
  | unknown
deriving DecidableEq

/-- What the loop does after handling an exception: fall through to the
next `while True` iteration, or leave the process (`exit()`). -/
inductive CycleOutcome
  | retryNextCycle
  | terminateProcess
deriving DecidableEq

/-- The handling an exception receives: whether a diagnostic is
logged, and whether the loop retries or the process exits. -/
structure ExceptionHandling where
  logged : Bool
  outcome : CycleOutcome
deriving DecidableEq

/-- The exception dispatch of the `__main__` while-loop (app.py lines
350-376). Every branch prints and logs; the `ConnectionError`,
`JSONDecodeError` and `TypeError` branches fall through to the next cycle
(no `exit()` on lines 362-364), while the `KeyError`, `ValueError` and
bare-`Exception` branches call `exit()`. -/
def handle_cycle_exception : CycleException → ExceptionHandling
  | .connectionError => { logged := true, outcome := .retryNextCycle }
  | .jsonDecodeError => { logged := true, outcome := .retryNextCycle }
  | .typeError => { logged := true, outcome := .retryNextCycle }
  | .keyError => { logged := true, outcome := .terminateProcess }
  | .valueError => { logged := true, outcome := .terminateProcess }
  | .unknown => { logged := true, outcome := .terminateProcess }

/-- The concrete closing-price series of the spec's end-to-end scenario. -/
def c1closes : List ℚ := [100, 102, 101, 105, 107, 106, 110, 109, 112, 115, 114, 118, 120, 119, 123]

/-- A strictly decreasing 15-close series (every delta is −1). -/
def decreasingSeries : List ℚ := [15, 14, 13, 12, 11, 10, 9, 8, 7, 6, 5, 4, 3, 2, 1]

/-- A constant 16-close series (all deltas zero; the 16th close exercises
one iteration of the Wilder smoothing loop). -/
def constSeries : List ℚ := [5, 5, 5, 5, 5, 5, 5, 5, 5, 5, 5, 5, 5, 5, 5, 5]

/-- A concrete exchange fixture whose order-status queries always report
the order as no longer open. -/
def filledExchange : Exchange :=
  ⟨fun _ => [], fun _ => 0, fun _ => 0, fun _ => 0, fun _ => true, fun _ => true,
    fun _ => "uuid-1", fun _ => "uuid-1", fun _ _ => ⟨false, 0, "Bittrex"⟩⟩

/-- A concrete exchange fixture on which every placement call fails. -/
def failingExchange : Exchange :=
  ⟨fun _ => [], fun _ => 0, fun _ => 0, fun _ => 0, fun _ => false, fun _ => false,
    fun _ => "uuid-1", fun _ => "uuid-1", fun _ _ => ⟨false, 0, "Bittrex"⟩⟩

/-- An exchange fixture on which every market passes the buy thresholds:
strictly decreasing closes (RSI = 0), volume 1000, ask price 1/1000;
placements succeed and orders fill on the first status query. -/
def busyExchange : Exchange :=
  ⟨fun _ => decreasingSeries, fun _ => 1000, fun _ => 1 / 1000, fun _ => 1 / 1000,
    fun _ => true, fun _ => true, fun m => m, fun m => m, fun _ _ => ⟨false, 7, "Bittrex"⟩⟩

/-- The buy thresholds of the spec's end-to-end scenario:
`buyRsiMax = 75`, volume threshold 500, minimum unit price 0.0000001
(`btcAmount = 1`). -/
def scenarioBuyParams : BuyParams := ⟨1, 75, 500, 1 / 10000000⟩

/-- The empty ledger. -/
def emptyDb : Database := ⟨[], [], []⟩

/-- A ledger with one open position on the BTC-LTC market. -/
def trackedDb : Database := ⟨["BTC-LTC"], [("BTC-LTC", ⟨3, 1 / 100⟩)], []⟩

/-! ## Helper lemmas -/

lemma length_adjDeltas (l : List ℚ) : (adjDeltas l).length = l.length - 1 := by
  simp only [adjDeltas, List.length_zipWith, List.length_tail]
  omega

lemma adjDeltas_take_subset (l : List ℚ) (n : ℕ) : adjDeltas (l.take n) ⊆ adjDeltas l := by
  intro d hd
  rw [List.mem_iff_getElem] at hd
  obtain ⟨i, hi, he⟩ := hd
  have hi' : i < (adjDeltas (l.take n)).length := hi
  rw [length_adjDeltas, List.length_take] at hi'
  have hlt : i < (adjDeltas l).length := by rw [length_adjDeltas]; omega
  rw [List.mem_iff_getElem]
  refine ⟨i, hlt, ?_⟩
  rw [← he]
  simp [adjDeltas, List.getElem_zipWith, List.getElem_tail, List.getElem_take]

lemma adjDeltas_drop_subset (l : List ℚ) (n : ℕ) : adjDeltas (l.drop n) ⊆ adjDeltas l := by
  intro d hd
  rw [List.mem_iff_getElem] at hd
  obtain ⟨i, hi, he⟩ := hd
  have hi' : i < (adjDeltas (l.drop n)).length := hi
  rw [length_adjDeltas, List.length_drop] at hi'
  have hlt : n + i < (adjDeltas l).length := by rw [length_adjDeltas]; omega
  rw [List.mem_iff_getElem]
  refine ⟨n + i, hlt, ?_⟩
  rw [← he]
  simp only [adjDeltas, List.getElem_zipWith, List.getElem_tail, List.getElem_drop]
  congr 1

lemma seedAvgs_nonneg (closes : List ℚ) : 0 ≤ (seedAvgs closes).1 ∧ 0 ≤ (seedAvgs closes).2 := by
  constructor
  · apply div_nonneg _ (by norm_num)
    apply List.sum_nonneg
    intro x hx
    simp only [List.mem_filter, decide_eq_true_eq] at hx
    linarith [hx.2]
  · apply div_nonneg _ (by norm_num)
    apply List.sum_nonneg
    intro x hx
    simp only [List.mem_map] at hx
    obtain ⟨d, _, rfl⟩ := hx
    exact abs_nonneg d

lemma foldl_wilderStep_nonneg :
    ∀ (ds : List ℚ) (p : ℚ × ℚ), 0 ≤ p.1 → 0 ≤ p.2 →
      0 ≤ (ds.foldl wilderStep p).1 ∧ 0 ≤ (ds.foldl wilderStep p).2 := by
  intro ds
  induction ds with
  | nil => intro p h1 h2; exact ⟨h1, h2⟩
  | cons d ds ih =>
    intro p h1 h2
    rw [List.foldl_cons]
    apply ih
    · show 0 ≤ (p.1 * 13 + if d > 0 then d else 0) / 14
      apply div_nonneg _ (by norm_num)
      have hg : (0 : ℚ) ≤ if d > 0 then d else 0 := by
        by_cases hd : d > 0
        · rw [if_pos hd]; linarith
        · rw [if_neg hd]
      linarith
    · show 0 ≤ (p.2 * 13 + if d < 0 then |d| else 0) / 14
      apply div_nonneg _ (by norm_num)
      have hl : (0 : ℚ) ≤ if d < 0 then |d| else 0 := by
        by_cases hd : d < 0
        · rw [if_pos hd]; exact abs_nonneg d
        · rw [if_neg hd]
      linarith

lemma foldl_wilderStep_loss_zero :
    ∀ (ds : List ℚ), (∀ d ∈ ds, 0 ≤ d) → ∀ g : ℚ,
      (ds.foldl wilderStep (g, 0)).2 = 0 := by
  intro ds
  induction ds with
  | nil => intro _ g; rfl
  | cons d ds ih =>
    intro h g
    rw [List.foldl_cons]
    have hd : ¬d < 0 := not_lt.mpr (h d (List.mem_cons_self d ds))
    have hstep : wilderStep (g, 0) d = ((g * 13 + if d > 0 then d else 0) / 14, 0) := by
      simp only [wilderStep, if_neg hd]
      norm_num
    rw [hstep]
    exact ih (fun x hx => h x (List.mem_cons_of_mem d hx)) _

lemma calculate_RSI_eq_none_iff (closes : List ℚ) :
    calculate_RSI closes = none ↔ (finalAvgs closes).2 = 0 := by
  by_cases h : (finalAvgs closes).2 = 0 <;> simp [calculate_RSI, h]

/-! ## Claim theorems -/

/-- C1 (counterexample): on the spec's end-to-end series the code's RSI is
2800/33 ≈ 84.85, so `check_buy_parameters` with `buyRsiMax = 75`,
volume 1000 (threshold 500) and ask price 0.001 (threshold 0.0000001)
returns `false`, contradicting the claimed `true`. -/
theorem sample_series_buy_rejected_counterexample :
    calculate_RSI c1closes = some (2800 / 33) ∧
    check_buy_parameters scenarioBuyParams (calculate_RSI c1closes) 1000 (1 / 1000) = false := by
  have h : calculate_RSI c1closes = some (2800 / 33) := by
    norm_num [calculate_RSI, finalAvgs, seedAvgs, change, tailDeltas, adjDeltas, wilderStep,
      c1closes]
  refine ⟨h, ?_⟩
  rw [h]
  norm_num [check_buy_parameters, scenarioBuyParams]

/-- C1 (amended): on the series
[100,102,101,105,107,106,110,109,112,115,114,118,120,119,123] the computed
RSI is the defined value 2800/33, strictly between 0 and 100, but
`check_buy_parameters` with volume 1000 (threshold 500), ask price 0.001
(threshold 0.0000001) and `buyRsiMax = 75` returns `false`, because
2800/33 > 75 and the buy rule requires `rsi ≤ buyRsiMax`. -/
theorem sample_series_rsi_in_range_but_no_buy :
    ∃ r, calculate_RSI c1closes = some r ∧ 0 < r ∧ r < 100 ∧ ¬r ≤ 75 ∧
      check_buy_parameters scenarioBuyParams (calculate_RSI c1closes) 1000 (1 / 1000) = false := by
  refine ⟨2800 / 33, ?_, by norm_num, by norm_num, by norm_num, ?_⟩
  · norm_num [calculate_RSI, finalAvgs, seedAvgs, change, tailDeltas, adjDeltas, wilderStep,
      c1closes]
  · have h : calculate_RSI c1closes = some (2800 / 33) := by
      norm_num [calculate_RSI, finalAvgs, seedAvgs, change, tailDeltas, adjDeltas, wilderStep,
        c1closes]
    rw [h]
    norm_num [check_buy_parameters, scenarioBuyParams]

/-- C2 (counterexample): a `TypeError` surfacing from the main cycle is
logged and the loop retries — the `except TypeError` branch (app.py lines
362-364) has no `exit()` call — whereas the claim says the process
terminates. -/
theorem typeError_retries_counterexample :
    (handle_cycle_exception CycleException.typeError).outcome = CycleOutcome.retryNextCycle ∧
    CycleOutcome.retryNextCycle ≠ CycleOutcome.terminateProcess := by
  exact ⟨rfl, by decide⟩

/-- C2 (amended): every classified error is logged; `ConnectionError`,
`JSONDecodeError` **and `TypeError`** retry with the next cycle, while
`KeyError`, `ValueError` and any unclassified exception terminate the
process. -/
theorem main_loop_exception_classification :
    ∀ exc : CycleException,
      (handle_cycle_exception exc).logged = true ∧
      ((handle_cycle_exception exc).outcome = CycleOutcome.terminateProcess ↔
        (exc = CycleException.keyError ∨ exc = CycleException.valueError ∨
          exc = CycleException.unknown)) := by
  intro exc
  cases exc <;> simp [handle_cycle_exception]

/-- C3: `check_sell_parameters` returns `true` iff (rsi is present and
`rsi ≥ sellRsiMin` and `profitMargin > sellMinProfitMarginMin`) or
`profitMargin > sellProfitMarginMin`; with rsi absent, a profit margin
exactly equal to `sellProfitMarginMin` yields `false` while any strictly
greater one yields `true`. -/
theorem check_sell_parameters_spec :
    (∀ (sp : SellParams) (rsi : Option ℚ) (profit_margin : ℚ),
      check_sell_parameters sp rsi profit_margin = true ↔
        ((∃ r, rsi = some r ∧ sp.rsiThreshold ≤ r ∧
            sp.minProfitMarginThreshold < profit_margin) ∨
          sp.profitMarginThreshold < profit_margin)) ∧
    (∀ sp : SellParams, check_sell_parameters sp none sp.profitMarginThreshold = false) ∧
    (∀ (sp : SellParams) (profit_margin : ℚ), sp.profitMarginThreshold < profit_margin →
      check_sell_parameters sp none profit_margin = true) := by
  refine ⟨?_, ?_, ?_⟩
  · intro sp rsi pm
    cases rsi with
    | none => simp [check_sell_parameters]
    | some r => simp [check_sell_parameters, ge_iff_le, and_assoc]
  · intro sp
    simp [check_sell_parameters]
  · intro sp pm h
    simp [check_sell_parameters, h]

/-- C3 (witness): concrete instance of the strictly-greater tier with rsi
absent. -/
theorem check_sell_parameters_spec_witness :
    check_sell_parameters ⟨30, 2, 1⟩ none 3 = true :=
  check_sell_parameters_spec.2.2 ⟨30, 2, 1⟩ 3 (by decide)

/-- C5 (counterexample): on a strictly decreasing series the RSI is
defined and equals exactly 0, which is not strictly between 0 and 100. -/
theorem decreasing_series_rsi_zero_counterexample :
    calculate_RSI decreasingSeries = some 0 ∧ ¬(0 : ℚ) < 0 := by
  constructor
  · norm_num [calculate_RSI, finalAvgs, seedAvgs, change, tailDeltas, adjDeltas, wilderStep,
      decreasingSeries]
  · norm_num

/-- C5 (amended): whenever `calculate_RSI` returns a value it lies in
[0, 100): it is at least 0 (0 is attained, e.g. on a strictly decreasing
series) and strictly less than 100. -/
theorem rsi_defined_bounds (closes : List ℚ) (r : ℚ)
    (h : calculate_RSI closes = some r) : 0 ≤ r ∧ r < 100 := by
  rw [calculate_RSI] at h
  by_cases hl : (finalAvgs closes).2 = 0
  · rw [if_pos hl] at h
    exact absurd h (by simp)
  · rw [if_neg hl] at h
    have hr := Option.some.inj h
    have hseed := seedAvgs_nonneg closes
    have hnn := foldl_wilderStep_nonneg (tailDeltas closes) (seedAvgs closes) hseed.1 hseed.2
    have hg : 0 ≤ (finalAvgs closes).1 := hnn.1
    have hl0 : 0 ≤ (finalAvgs closes).2 := hnn.2
    have hrs : 0 ≤ (finalAvgs closes).1 / (finalAvgs closes).2 := div_nonneg hg hl0
    have h1 : (0 : ℚ) < 1 + (finalAvgs closes).1 / (finalAvgs closes).2 := by linarith
    have h2 : (0 : ℚ) < 100 / (1 + (finalAvgs closes).1 / (finalAvgs closes).2) :=
      div_pos (by norm_num) h1
    have h3 : 100 / (1 + (finalAvgs closes).1 / (finalAvgs closes).2) ≤ 100 :=
      div_le_self (by norm_num) (by linarith)
    constructor
    · rw [← hr]; linarith
    · rw [← hr]; linarith

/-- C5 (witness): the bounds applied to the end-to-end series, whose RSI
evaluates to 2800/33. -/
theorem rsi_defined_bounds_witness : (0 : ℚ) ≤ 2800 / 33 ∧ (2800 : ℚ) / 33 < 100 :=
  rsi_defined_bounds c1closes (2800 / 33)
    (by norm_num [calculate_RSI, finalAvgs, seedAvgs, change, tailDeltas, adjDeltas, wilderStep,
      c1closes])

/-- C6 (counterexample): the 2-close series [2, 1] has fewer than 15
closes, yet `calculate_RSI` returns the numeric value 0 (its average loss
is 1/14 ≠ 0), not the absent result claimed. -/
theorem short_series_rsi_defined_counterexample :
    ([(2 : ℚ), 1].length < 15) ∧ calculate_RSI [2, 1] = some 0 := by
  constructor
  · decide
  · norm_num [calculate_RSI, finalAvgs, seedAvgs, change, tailDeltas, adjDeltas, wilderStep]

/-- C6 (amended): for a close series of length < 15 the RSI computation
yields the absent result iff the series contains no strictly decreasing
successive pair; with any negative successive delta present it yields a
numeric value computed from the partial window. -/
theorem short_series_rsi_none_iff_no_decline (closes : List ℚ) (h : closes.length < 15) :
    (calculate_RSI closes = none ↔ ∀ d ∈ adjDeltas closes, 0 ≤ d) := by
  have htake : closes.take 15 = closes := List.take_of_length_le (by omega)
  have hdrop : closes.drop 14 = [] := List.drop_eq_nil_of_le (by omega)
  have htail : tailDeltas closes = [] := by
    rw [tailDeltas, hdrop]
    rfl
  have hfin : finalAvgs closes = seedAvgs closes := by
    rw [finalAvgs, htail]
    rfl
  rw [calculate_RSI_eq_none_iff, hfin]
  have hchange : change closes = adjDeltas closes := by rw [change, htake]
  dsimp only [seedAvgs]
  rw [div_eq_zero_iff, or_iff_left (show ¬(14 : ℚ) = 0 by norm_num)]
  constructor
  · intro hsum d hd
    by_contra hneg
    push_neg at hneg
    have hmem : d ∈ (change closes).filter (fun d => d < 0) := by
      rw [List.mem_filter]
      exact ⟨hchange ▸ hd, by simp [hneg]⟩
    have hpos : ∀ x ∈ ((change closes).filter (fun d => d < 0)).map (fun d => |d|), 0 < x := by
      intro x hx
      simp only [List.mem_map, List.mem_filter, decide_eq_true_eq] at hx
      obtain ⟨a, ⟨_, ha⟩, rfl⟩ := hx
      exact abs_pos.mpr (ne_of_lt ha)
    have hne : ((change closes).filter (fun d => d < 0)).map (fun d => |d|) ≠ [] := by
      intro hnil
      rw [List.map_eq_nil_iff] at hnil
      rw [hnil] at hmem
      exact absurd hmem (List.not_mem_nil d)
    have := List.sum_pos _ hpos hne
    linarith
  · intro hnd
    have hfil : (change closes).filter (fun d => d < 0) = [] := by
      rw [List.filter_eq_nil_iff]
      intro a ha
      have := hnd a (hchange ▸ ha)
      simp only [decide_eq_true_eq]
      linarith
    rw [hfil]
    rfl

/-- C6 (witness): the amended equivalence applied to the short series
[2, 1], which has a negative delta. -/
theorem short_series_rsi_none_iff_no_decline_witness :
    (calculate_RSI [2, 1] = none ↔ ∀ d ∈ adjDeltas [(2 : ℚ), 1], 0 ≤ d) :=
  short_series_rsi_none_iff_no_decline [2, 1] (by decide)

/-- C7: for every close series in which no successive delta is negative,
the final average loss is exactly zero and `calculate_RSI` returns the
absent result, so the `rs` division is never reached with a zero divisor. -/
theorem no_decline_series_rsi_absent (closes : List ℚ)
    (h : ∀ d ∈ adjDeltas closes, 0 ≤ d) :
    (finalAvgs closes).2 = 0 ∧ calculate_RSI closes = none := by
  have hseed : (seedAvgs closes).2 = 0 := by
    have hfil : (change closes).filter (fun d => d < 0) = [] := by
      rw [List.filter_eq_nil_iff]
      intro a ha
      have h0 : 0 ≤ a := h a (adjDeltas_take_subset closes 15 ha)
      simp only [decide_eq_true_eq]
      linarith
    dsimp only [seedAvgs]
    rw [hfil]
    norm_num
  have hpair : seedAvgs closes = ((seedAvgs closes).1, 0) := by rw [← hseed]
  have hfin : (finalAvgs closes).2 = 0 := by
    rw [finalAvgs, hpair]
    exact foldl_wilderStep_loss_zero _ (fun d hd => h d (adjDeltas_drop_subset closes 14 hd)) _
  exact ⟨hfin, (calculate_RSI_eq_none_iff closes).mpr hfin⟩

/-- C7 (witness): the constant 16-close series, whose deltas are all
zero. -/
theorem no_decline_series_rsi_absent_witness :
    (finalAvgs constSeries).2 = 0 ∧ calculate_RSI constSeries = none :=
  no_decline_series_rsi_absent constSeries (by norm_num [adjDeltas, constSeries])

lemma pollLoopAux_closed (query : ℕ → OrderData) (limit fuel t n : ℕ) (d : OrderData)
    (hd : d.isOpen = false) : pollLoopAux query limit fuel t n d = (d, t, n) := by
  cases fuel with
  | zero => rfl
  | succ fuel => simp [pollLoopAux, hd]

lemma pollLoopAux_allOpen (query : ℕ → OrderData) (limit : ℕ)
    (hopen : ∀ m, (query m).isOpen = true) :
    ∀ (fuel t n : ℕ) (d : OrderData), d = query (n - 1) → limit + 1 ≤ t + 10 * fuel →
      t ≤ limit + 10 → 1 ≤ n →
      (pollLoopAux query limit fuel t n d).2.1 ≤ limit + 10 ∧
      1 ≤ (pollLoopAux query limit fuel t n d).2.2 ∧
      (pollLoopAux query limit fuel t n d).1 =
        query ((pollLoopAux query limit fuel t n d).2.2 - 1) ∧
      ((pollLoopAux query limit fuel t n d).1).isOpen = true := by
  intro fuel
  induction fuel with
  | zero =>
    intro t n d hd hf ht hn
    rw [pollLoopAux]
    exact ⟨ht, hn, hd, by rw [hd]; exact hopen (n - 1)⟩
  | succ fuel ih =>
    intro t n d hd hf ht hn
    by_cases hc : t ≤ limit
    · have hstep : pollLoopAux query limit (fuel + 1) t n d =
          pollLoopAux query limit fuel (t + 10) (n + 1) (query n) := by
        rw [pollLoopAux, if_pos ⟨hc, by rw [hd]; exact hopen (n - 1)⟩]
      rw [hstep]
      exact ih (t + 10) (n + 1) (query n) (by norm_num) (by omega) (by omega) (by omega)
    · have hstep : pollLoopAux query limit (fuel + 1) t n d = (d, t, n) := by
        rw [pollLoopAux, if_neg (by intro hcc; exact hc hcc.1)]
      rw [hstep]
      exact ⟨ht, hn, hd, by rw [hd]; exact hopen (n - 1)⟩

/-- C4: with `trade_time_limit = tradeTimeLimitMinutes·60` seconds, (a) if
every status query reports the order open, `get_order` leaves its polling
loop with at most `tradeTimeLimitMinutes·60 + 10` seconds slept (one poll
interval past the limit), issues exactly one cancel request, and returns
the last retrieved snapshot; (b) if the very first status query reports
the order not open, it returns that snapshot after a single query and
issues no cancel. -/
theorem get_order_timeout_and_fill (query : ℕ → OrderData) (tlMinutes : ℕ) :
    ((∀ m, (query m).isOpen = true) →
      (get_order query (tlMinutes * 60)).elapsed ≤ tlMinutes * 60 + 10 ∧
      (get_order query (tlMinutes * 60)).cancels = 1 ∧
      (get_order query (tlMinutes * 60)).result =
        query ((get_order query (tlMinutes * 60)).polls - 1)) ∧
    ((query 0).isOpen = false →
      (get_order query (tlMinutes * 60)).cancels = 0 ∧
      (get_order query (tlMinutes * 60)).result = query 0 ∧
      (get_order query (tlMinutes * 60)).polls = 1) := by
  constructor
  · intro hopen
    have h := pollLoopAux_allOpen query (tlMinutes * 60) hopen (tlMinutes * 60 + 1) 0 1
      (query 0) (by norm_num) (by omega) (by omega) (by omega)
    rw [get_order]
    rw [if_pos h.2.2.2]
    exact ⟨h.1, rfl, h.2.2.1⟩
  · intro hclosed
    rw [get_order]
    rw [pollLoopAux_closed query (tlMinutes * 60) (tlMinutes * 60 + 1) 0 1 (query 0) hclosed]
    rw [if_neg (by rw [hclosed]; exact Bool.false_ne_true)]
    exact ⟨rfl, rfl, rfl⟩

/-- C4 (witness): both branches at `tradeTimeLimitMinutes = 2` — an
exchange whose queries always report open, and one whose first query
reports the order closed. -/
theorem get_order_timeout_and_fill_witness :
    ((get_order (fun _ => ⟨true, 0, "Bittrex"⟩) (2 * 60)).elapsed ≤ 2 * 60 + 10 ∧
      (get_order (fun _ => ⟨true, 0, "Bittrex"⟩) (2 * 60)).cancels = 1 ∧
      (get_order (fun _ => ⟨true, 0, "Bittrex"⟩) (2 * 60)).result =
        (fun _ => (⟨true, 0, "Bittrex"⟩ : OrderData))
          ((get_order (fun _ => ⟨true, 0, "Bittrex"⟩) (2 * 60)).polls - 1)) ∧
    ((get_order (fun _ => ⟨false, 0, "Bittrex"⟩) (2 * 60)).cancels = 0 ∧
      (get_order (fun _ => ⟨false, 0, "Bittrex"⟩) (2 * 60)).result = ⟨false, 0, "Bittrex"⟩ ∧
      (get_order (fun _ => ⟨false, 0, "Bittrex"⟩) (2 * 60)).polls = 1) :=
  ⟨(get_order_timeout_and_fill (fun _ => ⟨true, 0, "Bittrex"⟩) 2).1 (fun _ => rfl),
    (get_order_timeout_and_fill (fun _ => ⟨false, 0, "Bittrex"⟩) 2).2 rfl⟩

/-- C8: a market whose coin pair is already tracked in the ledger is
skipped by `buy_strategy` — the ledger is unchanged and no action (in
particular no buy order) is emitted — and this holds across any number of
repeated invocations. -/
theorem tracked_market_never_rebuys (e : Exchange) (bp : BuyParams) (db : Database)
    (coin_pair : String) (h : coin_pair ∈ db.trackedCoinPairs) :
    buy_strategy e bp db coin_pair = (db, []) ∧
    ∀ n : ℕ, iterate_buy_strategy e bp coin_pair n db = (db, []) := by
  have h1 : buy_strategy e bp db coin_pair = (db, []) := by
    rw [buy_strategy, if_pos h]
  refine ⟨h1, ?_⟩
  intro n
  induction n with
  | zero => rfl
  | succ n ih => simp [iterate_buy_strategy, h1, ih]

/-- C8 (witness): three invocations on a ledger already tracking
BTC-LTC. -/
theorem tracked_market_never_rebuys_witness :
    buy_strategy filledExchange scenarioBuyParams trackedDb "BTC-LTC" = (trackedDb, []) ∧
    ∀ n : ℕ, iterate_buy_strategy filledExchange scenarioBuyParams "BTC-LTC" n trackedDb =
      (trackedDb, []) :=
  tracked_market_never_rebuys filledExchange scenarioBuyParams trackedDb "BTC-LTC"
    (by simp [trackedDb])

/-- C9: when the exchange reports placement failure (`success = false`),
`buy` (resp. `sell`) emits exactly the placement call and one error log —
no ledger write, no status polling, no cancel, no notification — and
returns the ledger unchanged. -/
theorem placement_failure_no_side_effects (e : Exchange) (db : Database) (coin_pair : String)
    (btc_quantity price : ℚ) (bstats : BuyStats) (sprice : ℚ) (sstats : SellStats) (tl : ℕ) :
    (e.buySuccess coin_pair = false →
      buy e db coin_pair btc_quantity price bstats tl =
        (db, [Action.buyLimit coin_pair (btc_quantity / price) price,
          Action.logError ("Failed to buy on " ++ coin_pair ++ " market.")])) ∧
    (e.sellSuccess coin_pair = false →
      sell e db coin_pair sprice sstats tl =
        (db, [Action.sellLimit coin_pair (get_open_trade db coin_pair).quantity sprice,
          Action.logError ("Failed to sell on " ++ coin_pair ++ " market.")])) := by
  constructor
  · intro h
    rw [buy, if_pos h]
  · intro h
    rw [sell, if_pos h]

/-- C9 (witness): concrete failing placements on the BTC-LTC market. -/
theorem placement_failure_no_side_effects_witness :
    (buy failingExchange trackedDb "BTC-LTC" 1 (1 / 100) ⟨some 20, 1000⟩ 2 =
      (trackedDb, [Action.buyLimit "BTC-LTC" (1 / (1 / 100)) (1 / 100),
        Action.logError ("Failed to buy on " ++ "BTC-LTC" ++ " market.")])) ∧
    (sell failingExchange trackedDb "BTC-LTC" (1 / 50) ⟨some 80, 1⟩ 2 =
      (trackedDb, [Action.sellLimit "BTC-LTC" (get_open_trade trackedDb "BTC-LTC").quantity
        (1 / 50),
        Action.logError ("Failed to sell on " ++ "BTC-LTC" ++ " market.")])) :=
  ⟨(placement_failure_no_side_effects failingExchange trackedDb "BTC-LTC" 1 (1 / 100)
      ⟨some 20, 1000⟩ (1 / 50) ⟨some 80, 1⟩ 2).1 rfl,
    (placement_failure_no_side_effects failingExchange trackedDb "BTC-LTC" 1 (1 / 100)
      ⟨some 20, 1000⟩ (1 / 50) ⟨some 80, 1⟩ 2).2 rfl⟩

/-- C10 (counterexample): starting from an empty ledger, one `analyse_buys`
cycle over the two markets BTC-A and BTC-B — both of which pass the buy
thresholds and whose orders fill — opens **two** positions: the emptiness
check happens once at the start of the cycle, so BTC-B's `buy_strategy`
runs (and buys) while BTC-A's position is already open, refuting the
global single-position rule. -/
theorem single_cycle_opens_two_positions_counterexample :
    (analyse_buys busyExchange scenarioBuyParams ["BTC-A", "BTC-B"] emptyDb).1.trackedCoinPairs =
      ["BTC-B", "BTC-A"] := by
  have hrsi : calculate_RSI decreasingSeries = some 0 := by
    norm_num [calculate_RSI, finalAvgs, seedAvgs, change, tailDeltas, adjDeltas, wilderStep,
      decreasingSeries]
  norm_num [analyse_buys, buy_strategy, buy, get_order, pollLoopAux_closed,
    check_buy_parameters, hrsi, busyExchange, scenarioBuyParams, emptyDb, store_buy,
    store_initial_buy]
  rw [if_neg (by decide)]

/-- C10 (amended): `analyse_buys` evaluates buy candidates only in cycles
that begin with an empty tracked-coin-pairs ledger — with any position
open at the start of a cycle it does nothing. This does not bound the
number of open positions: within a single cycle the remaining markets are
still evaluated after a buy fills, so several positions can be open at
once (see the counterexample). -/
theorem analyse_buys_skips_when_ledger_nonempty (e : Exchange) (bp : BuyParams)
    (pairs : List String) (db : Database) (h : db.trackedCoinPairs ≠ []) :
    analyse_buys e bp pairs db = (db, []) := by
  have hlen : ¬db.trackedCoinPairs.length < 1 := by
    cases hdb : db.trackedCoinPairs with
    | nil => exact absurd hdb h
    | cons a l => simp [hdb]
  rw [analyse_buys, if_neg hlen]

/-- C10 (witness): a cycle over two markets with a position already open
does nothing. -/
theorem analyse_buys_skips_when_ledger_nonempty_witness :
    analyse_buys busyExchange scenarioBuyParams ["BTC-A", "BTC-B"] trackedDb =
      (trackedDb, []) :=
  analyse_buys_skips_when_ledger_nonempty busyExchange scenarioBuyParams ["BTC-A", "BTC-B"]
    trackedDb (by simp [trackedDb])

end CryptoBot
